import Mathlib

/-!
Shallow embedding of the levitation control subsystem of the `art` base-station
firmware (`src/orb/firmware/base/src/levitation/`), together with theorems
settling the specification claims about it.

Conventions of the embedding:
* `f32` values are modelled as exact rationals (`ℚ`); numeric literals such as
  `0.1` are taken at their ideal mathematical value.
* machine integers (`u16`, `u32`, `usize`) are modelled as `ℕ`; the cycle
  counters of the interlock manager never approach `u32::MAX` in any claim.
* `libm::sinf`, `libm::cosf` and `core::f32::consts::PI` are modelled as an
  explicit environment (`LibmEnv`) passed to the functions that use them; no
  claim depends on their values, so theorems quantify over the environment.
* fallible Rust functions returning `BaseResult<T>` become functions returning
  the new controller state paired with `Except BaseError T`; an error return
  carries the unchanged controller, mirroring the early `return Err(..)`.
-/

namespace Art

/-- Largest finite `f32` value, `(2 - 2⁻²³)·2¹²⁷`; used where the Rust code
folds starting from `f32::MAX` / `f32::MIN`. -/
def f32MAX : ℚ := 2 ^ 128 - 2 ^ 104

/-! ### Constants (`levitation/mod.rs`, `pub mod constants`) -/

def HEIGHT_MIN_MM : ℚ := 5
def HEIGHT_MAX_MM : ℚ := 25
def HEIGHT_FLOAT_MM : ℚ := 20
def HEIGHT_CHARGE_MM : ℚ := 5
def MAX_DESCENT_RATE_MM_S : ℚ := 15
def MAX_BOBBLE_AMPLITUDE_MM : ℚ := 8
def MIN_BOBBLE_FREQ_HZ : ℚ := 1 / 10
def MAX_BOBBLE_FREQ_HZ : ℚ := 2
def CONTROL_RATE_HZ : ℕ := 100
def MAX_OSCILLATION_MM : ℚ := 5
def MAX_COIL_TEMP_C : ℚ := 80
def WARN_COIL_TEMP_C : ℚ := 65

/-- Rust `f32::clamp(lo, hi)`: `lo` if below, `hi` if above, else the value. -/
def clampQ (x lo hi : ℚ) : ℚ :=
  if x < lo then lo else if x > hi then hi else x

/-! ### Error type (`error.rs`) -/

/-- Base station error type (`BaseError`); only the variants the levitation
core produces are exercised by the claims, but all are carried. -/
inductive BaseError where
  | HeightOutOfRange
  | InvalidAmplitude
  | InvalidFrequency
  | LevitationUnstable
  | EmergencyLanding
  | DacError
  | AdcError
  | I2cError
  | HallSensorFault
  | WptFault
  | ForeignObjectDetected
  | CoilOvertemperature
  | SafetyViolation
  | PowerSupplyFault
  | OrbTimeout
  | ProtocolError
  deriving DecidableEq, Repr

abbrev BaseResult (α : Type) := Except BaseError α

/-! ### Modes and state (`levitation/mod.rs`) -/

/-- Simplified mode for transition tracking (`LevitationModeSimple`). -/
inductive LevitationModeSimple where
  | Float
  | Charging
  | Bobble
  | Landing
  | Lifted
  deriving DecidableEq, Repr

/-- Levitation operating modes (`LevitationMode`); the Rust field `from` is
renamed `from_mode` (`from` is a Lean keyword). -/
inductive LevitationMode where
  | Float (height_mm : ℚ)
  | Charging (target_height_mm : ℚ) (charge_rate_w : ℚ)
  | Bobble (center_mm : ℚ) (amplitude_mm : ℚ) (frequency_hz : ℚ)
  | Landing (current_height_mm : ℚ) (descent_rate_mm_s : ℚ)
  | EmergencyLanding
  | Lifted
  | Transitioning (from_mode : LevitationModeSimple) (to_mode : LevitationModeSimple)
      (progress : ℚ)
  deriving DecidableEq, Repr

/-- Current state of the levitation system (`LevitationState`). -/
structure LevitationState where
  height_mm : ℚ
  velocity_mm_s : ℚ
  oscillation_amplitude_mm : ℚ
  electromagnet_temp_c : ℚ
  wpt_coil_temp_c : ℚ
  power_supply_ok : Bool
  mode : LevitationMode
  orb_present : Bool
  stable : Bool
  deriving DecidableEq, Repr

/-- `LevitationState::default()` (derived `Default`: zeros, `false`, and the
default mode `Lifted`). -/
def LevitationState.dfault : LevitationState :=
  { height_mm := 0, velocity_mm_s := 0, oscillation_amplitude_mm := 0
    electromagnet_temp_c := 0, wpt_coil_temp_c := 0, power_supply_ok := false
    mode := LevitationMode.Lifted, orb_present := false, stable := false }

/-! ### Safety verifier (`levitation/safety.rs`) -/

/-- Safety violation codes (`SafetyCode`). -/
inductive SafetyCode where
  | None
  | HeightUpperBound
  | HeightLowerBound
  | DescentRate
  | Oscillation
  | Thermal
  | PowerFailure
  deriving DecidableEq, Repr

/-- Individual safety constraint values (`SafetyConstraints`). -/
structure SafetyConstraints where
  h_height_upper : ℚ
  h_height_lower : ℚ
  h_descent_rate : ℚ
  h_oscillation : ℚ
  h_thermal : ℚ
  h_power : ℚ
  deriving DecidableEq, Repr

/-- Safety verification result (`SafetyResult`). -/
structure SafetyResult where
  safe : Bool
  margin : ℚ
  limiting_constraint : SafetyCode
  constraints : SafetyConstraints
  deriving DecidableEq, Repr

/-- Levitation safety verifier thresholds (`LevitationSafetyVerifier`). -/
structure LevitationSafetyVerifier where
  max_height_mm : ℚ
  min_height_mm : ℚ
  max_descent_rate_mm_s : ℚ
  max_oscillation_mm : ℚ
  max_coil_temp_c : ℚ
  warn_coil_temp_c : ℚ
  deriving DecidableEq, Repr

/-- `LevitationSafetyVerifier::default()` / `::new()`. -/
def LevitationSafetyVerifier.new : LevitationSafetyVerifier :=
  { max_height_mm := HEIGHT_MAX_MM + 5
    min_height_mm := HEIGHT_MIN_MM - 2
    max_descent_rate_mm_s := MAX_DESCENT_RATE_MM_S
    max_oscillation_mm := MAX_OSCILLATION_MM
    max_coil_temp_c := MAX_COIL_TEMP_C
    warn_coil_temp_c := WARN_COIL_TEMP_C }

def LevitationSafetyVerifier.h_height_upper (v : LevitationSafetyVerifier)
    (state : LevitationState) : ℚ :=
  (v.max_height_mm - state.height_mm) / 10

def LevitationSafetyVerifier.h_height_lower (v : LevitationSafetyVerifier)
    (state : LevitationState) : ℚ :=
  (state.height_mm - v.min_height_mm) / 5

def LevitationSafetyVerifier.h_descent_rate (v : LevitationSafetyVerifier)
    (state : LevitationState) : ℚ :=
  if state.velocity_mm_s ≥ 0 then 1
  else (v.max_descent_rate_mm_s - (-state.velocity_mm_s)) / v.max_descent_rate_mm_s

def LevitationSafetyVerifier.h_oscillation (v : LevitationSafetyVerifier)
    (state : LevitationState) : ℚ :=
  (v.max_oscillation_mm - state.oscillation_amplitude_mm) / v.max_oscillation_mm

def LevitationSafetyVerifier.h_thermal (v : LevitationSafetyVerifier)
    (state : LevitationState) : ℚ :=
  let temp := max state.electromagnet_temp_c state.wpt_coil_temp_c
  if temp < v.warn_coil_temp_c then 1
  else if temp ≥ v.max_coil_temp_c then -1
  else (v.max_coil_temp_c - temp) / (v.max_coil_temp_c - v.warn_coil_temp_c)

def LevitationSafetyVerifier.h_power (_v : LevitationSafetyVerifier)
    (state : LevitationState) : ℚ :=
  if state.power_supply_ok then 1 else -1

/-- The fold in `compute_barrier` over the six `(value, code)` pairs, starting
from `(f32::MAX, SafetyCode::None)` and keeping the first strict minimum. -/
def foldMin (l : List (ℚ × SafetyCode)) : ℚ × SafetyCode :=
  l.foldl (fun acc pc => if pc.1 < acc.1 then pc else acc) (f32MAX, SafetyCode.None)

/-- `LevitationSafetyVerifier::compute_barrier`. -/
def LevitationSafetyVerifier.compute_barrier (v : LevitationSafetyVerifier)
    (state : LevitationState) : SafetyResult :=
  let constraints : SafetyConstraints :=
    { h_height_upper := v.h_height_upper state
      h_height_lower := v.h_height_lower state
      h_descent_rate := v.h_descent_rate state
      h_oscillation := v.h_oscillation state
      h_thermal := v.h_thermal state
      h_power := v.h_power state }
  let m := foldMin
    [(constraints.h_height_upper, SafetyCode.HeightUpperBound),
     (constraints.h_height_lower, SafetyCode.HeightLowerBound),
     (constraints.h_descent_rate, SafetyCode.DescentRate),
     (constraints.h_oscillation, SafetyCode.Oscillation),
     (constraints.h_thermal, SafetyCode.Thermal),
     (constraints.h_power, SafetyCode.PowerFailure)]
  { safe := decide (m.1 > 0), margin := m.1, limiting_constraint := m.2
    constraints := constraints }

/-- `LevitationSafetyVerifier::corrective_action`. -/
def LevitationSafetyVerifier.corrective_action (_v : LevitationSafetyVerifier)
    (result : SafetyResult) : ℚ :=
  if result.safe ∧ result.margin > 1 / 2 then 0
  else
    match result.limiting_constraint with
    | SafetyCode.HeightUpperBound => -5 * (1 - max result.margin 0)
    | SafetyCode.HeightLowerBound => 5 * (1 - max result.margin 0)
    | SafetyCode.DescentRate => 3
    | SafetyCode.Oscillation => 0
    | SafetyCode.Thermal =>
        if result.margin < 0 then 10 else 3 * (1 - result.margin)
    | SafetyCode.PowerFailure => 0
    | SafetyCode.None => 0

/-! ### Safety interlock manager (`levitation/safety.rs`) -/

/-- Interlock state (`SafetyInterlockManager`). -/
structure SafetyInterlockManager where
  safe_cycles : ℕ
  violation_cycles : ℕ
  last_margin : ℚ
  emergency_active : Bool
  lockout : Bool
  deriving DecidableEq, Repr

/-- `SafetyInterlockManager::new()` (derived `Default`). -/
def SafetyInterlockManager.new : SafetyInterlockManager :=
  { safe_cycles := 0, violation_cycles := 0, last_margin := 0
    emergency_active := false, lockout := false }

/-- `SafetyInterlockManager::update`: returns the new state and the returned
`bool` (emergency action required). -/
def SafetyInterlockManager.update (m : SafetyInterlockManager)
    (result : SafetyResult) : SafetyInterlockManager × Bool :=
  let m1 :=
    if result.safe then
      let m2 := { m with safe_cycles := m.safe_cycles + 1, violation_cycles := 0 }
      if m2.safe_cycles > 100 ∧ m2.lockout = false then
        { m2 with emergency_active := false }
      else m2
    else
      let m2 := { m with violation_cycles := m.violation_cycles + 1, safe_cycles := 0 }
      if m2.violation_cycles ≥ 5 then { m2 with emergency_active := true } else m2
  let m1 := { m1 with last_margin := result.margin }
  (m1, m1.emergency_active)

/-- `SafetyInterlockManager::is_emergency`. -/
def SafetyInterlockManager.is_emergency (m : SafetyInterlockManager) : Bool :=
  m.emergency_active

/-- `SafetyInterlockManager::is_locked_out`. -/
def SafetyInterlockManager.is_locked_out (m : SafetyInterlockManager) : Bool :=
  m.lockout

/-- `SafetyInterlockManager::trigger_lockout`. -/
def SafetyInterlockManager.trigger_lockout (m : SafetyInterlockManager) :
    SafetyInterlockManager :=
  { m with lockout := true, emergency_active := true }

/-- `SafetyInterlockManager::reset`. -/
def SafetyInterlockManager.reset (m : SafetyInterlockManager) :
    SafetyInterlockManager :=
  { m with
    lockout := false
    emergency_active := false
    safe_cycles := 0
    violation_cycles := 0 }

/-- Fold a sequence of safety results through the interlock, keeping the state. -/
def foldUpdates (m : SafetyInterlockManager) (rs : List SafetyResult) :
    SafetyInterlockManager :=
  rs.foldl (fun s r => (s.update r).1) m

/-- The list of `bool`s returned by successive `update` calls. -/
def runOutputs (m : SafetyInterlockManager) (rs : List SafetyResult) : List Bool :=
  match rs with
  | [] => []
  | r :: rest =>
    let u := m.update r
    u.2 :: runOutputs u.1 rest

/-! ### Calibration (`levitation/calibration.rs`) -/

/-- Calibration point: height (mm) to ADC/DAC values (`CalibrationPoint`). -/
structure CalibrationPoint where
  height_mm : ℚ
  adc_value : ℕ
  dac_voltage : ℚ
  deriving DecidableEq, Repr

/-- Derived `Default` for `CalibrationPoint` (all zeros). -/
def CalibrationPoint.dfault : CalibrationPoint :=
  { height_mm := 0, adc_value := 0, dac_voltage := 0 }

/-- Complete calibration data for height control (`CalibrationData`); the
Rust `[CalibrationPoint; 5]` array is a 5-element list. -/
structure CalibrationData where
  points : List CalibrationPoint
  num_points : ℕ
  version : ℕ
  serial : ℕ
  deriving DecidableEq, Repr

/-- Array indexing `self.points[i]` (in-bounds in every reachable use). -/
def CalibrationData.pt (c : CalibrationData) (i : ℕ) : CalibrationPoint :=
  c.points.getD i CalibrationPoint.dfault

/-- `CalibrationData::default()`: typical HCNT + MCP4725 calibration. -/
def CalibrationData.dfault : CalibrationData :=
  { points :=
      [{ height_mm := 5, adc_value := 3800, dac_voltage := 5 / 2 },
       { height_mm := 10, adc_value := 3200, dac_voltage := 2 },
       { height_mm := 15, adc_value := 2600, dac_voltage := 3 / 2 },
       { height_mm := 20, adc_value := 2000, dac_voltage := 1 },
       { height_mm := 25, adc_value := 1400, dac_voltage := 1 / 2 }]
    num_points := 5
    version := 1
    serial := 0 }

/-- A `for i in 0..n { if cond(i) { return body(i) } }; fallback` loop. -/
def loopFirst (idxs : List ℕ) (cond : ℕ → Bool) (body : ℕ → ℚ) (fallback : ℚ) : ℚ :=
  match idxs with
  | [] => fallback
  | i :: rest => if cond i then body i else loopFirst rest cond body fallback

/-- `CalibrationData::adc_to_height`: ADC reading to height (mm) by linear
interpolation; the `u16` subtractions are guarded by the branch condition, so
`ℕ` subtraction agrees with them. -/
def CalibrationData.adc_to_height (c : CalibrationData) (adc_value : ℕ) : ℚ :=
  if adc_value ≥ (c.pt 0).adc_value then (c.pt 0).height_mm
  else if adc_value ≤ (c.pt (c.num_points - 1)).adc_value then
    (c.pt (c.num_points - 1)).height_mm
  else
    loopFirst (List.range (c.num_points - 1))
      (fun i =>
        decide (adc_value ≤ (c.pt i).adc_value ∧ adc_value ≥ (c.pt (i + 1)).adc_value))
      (fun i =>
        let p1 := c.pt i
        let p2 := c.pt (i + 1)
        let t := ((p1.adc_value - adc_value : ℕ) : ℚ) / ((p1.adc_value - p2.adc_value : ℕ) : ℚ)
        p1.height_mm + t * (p2.height_mm - p1.height_mm))
      15

/-- `CalibrationData::height_to_dac`: height (mm) to DAC voltage; note the
input is clamped to `[HEIGHT_MIN_MM, HEIGHT_MAX_MM]` before the table lookup. -/
def CalibrationData.height_to_dac (c : CalibrationData) (height_mm : ℚ) : ℚ :=
  let height := clampQ height_mm HEIGHT_MIN_MM HEIGHT_MAX_MM
  if height ≤ (c.pt 0).height_mm then (c.pt 0).dac_voltage
  else if height ≥ (c.pt (c.num_points - 1)).height_mm then
    (c.pt (c.num_points - 1)).dac_voltage
  else
    loopFirst (List.range (c.num_points - 1))
      (fun i =>
        decide (height ≥ (c.pt i).height_mm ∧ height ≤ (c.pt (i + 1)).height_mm))
      (fun i =>
        let p1 := c.pt i
        let p2 := c.pt (i + 1)
        let t := (height - p1.height_mm) / (p2.height_mm - p1.height_mm)
        p1.dac_voltage + t * (p2.dac_voltage - p1.dac_voltage))
      (3 / 2)

/-- `CalibrationData::is_valid`: point count, strict monotonicity of heights
(ascending) and DAC voltages (descending), and plausible endpoint ranges. -/
def CalibrationData.is_valid (c : CalibrationData) : Bool :=
  if c.num_points < 3 then false
  else
    ((List.range' 1 (c.num_points - 1)).all fun i =>
        decide ((c.pt (i - 1)).height_mm < (c.pt i).height_mm)) &&
    ((List.range' 1 (c.num_points - 1)).all fun i =>
        decide ((c.pt i).dac_voltage < (c.pt (i - 1)).dac_voltage)) &&
    (let first := c.pt 0
     let last := c.pt (c.num_points - 1)
     decide (first.height_mm ≥ 3 ∧ first.height_mm ≤ 10 ∧
       last.height_mm ≥ 20 ∧ last.height_mm ≤ 30 ∧
       first.dac_voltage > 2 ∧ last.dac_voltage < 1))

/-- WPT frequency calibration data (`WptCalibrationData`). -/
structure WptCalibrationData where
  points : List (ℚ × ℚ)
  deriving DecidableEq, Repr

/-- `WptCalibrationData::default()`. -/
def WptCalibrationData.dfault : WptCalibrationData :=
  { points := [(5, 132000), (10, 136000), (15, 138000), (20, 141000)] }

/-- Indexing `self.points[i]`. -/
def WptCalibrationData.pt (w : WptCalibrationData) (i : ℕ) : ℚ × ℚ :=
  w.points.getD i (0, 0)

/-- `WptCalibrationData::optimal_frequency`. -/
def WptCalibrationData.optimal_frequency (w : WptCalibrationData)
    (height_mm : ℚ) : ℚ :=
  let height := clampQ height_mm 5 25
  loopFirst (List.range (w.points.length - 1))
    (fun i => decide (height ≥ (w.pt i).1 ∧ height ≤ (w.pt (i + 1)).1))
    (fun i =>
      let t := (height - (w.pt i).1) / ((w.pt (i + 1)).1 - (w.pt i).1)
      (w.pt i).2 + t * ((w.pt (i + 1)).2 - (w.pt i).2))
    (if height < (w.pt 0).1 then (w.pt 0).2 else (w.pt (w.points.length - 1)).2)

/-! ### Libm environment

`libm::sinf`, `libm::cosf` and `core::f32::consts::PI` appear only inside the
bobble animation; no claim constrains their values, so they are passed as an
explicit environment and the theorems hold for every interpretation. -/

structure LibmEnv where
  sinf : ℚ → ℚ
  cosf : ℚ → ℚ
  pi : ℚ

/-! ### Trajectories and animations (`levitation/trajectory.rs`) -/

/-- Trajectory generator for smooth height transitions (`HeightTrajectory`). -/
structure HeightTrajectory where
  start_height : ℚ
  target_height : ℚ
  duration : ℚ
  elapsed : ℚ
  deriving DecidableEq, Repr

/-- `HeightTrajectory::new`: duration floored to 100 ms. -/
def HeightTrajectory.new (start target duration_s : ℚ) : HeightTrajectory :=
  { start_height := start, target_height := target
    duration := max duration_s (1 / 10), elapsed := 0 }

/-- `HeightTrajectory::to_charging`. -/
def HeightTrajectory.to_charging (current_height : ℚ) : HeightTrajectory :=
  HeightTrajectory.new current_height HEIGHT_CHARGE_MM 2

/-- `HeightTrajectory::to_float`. -/
def HeightTrajectory.to_float (current_height : ℚ) : HeightTrajectory :=
  HeightTrajectory.new current_height HEIGHT_FLOAT_MM (3 / 2)

/-- `HeightTrajectory::sample`. -/
def HeightTrajectory.sample (tr : HeightTrajectory) (t : ℚ) : ℚ :=
  if t ≥ tr.duration then tr.target_height
  else if t ≤ 0 then tr.start_height
  else
    let s := t / tr.duration
    let blend := s * s * (3 - 2 * s)
    tr.start_height + blend * (tr.target_height - tr.start_height)

/-- `HeightTrajectory::sample_velocity`. -/
def HeightTrajectory.sample_velocity (tr : HeightTrajectory) (t : ℚ) : ℚ :=
  if t ≤ 0 ∨ t ≥ tr.duration then 0
  else
    let s := t / tr.duration
    let blend_deriv := 6 * s * (1 - s)
    blend_deriv * (tr.target_height - tr.start_height) / tr.duration

/-- `HeightTrajectory::update`: advance elapsed time, return completion. -/
def HeightTrajectory.update (tr : HeightTrajectory) (dt : ℚ) :
    HeightTrajectory × Bool :=
  let tr1 := { tr with elapsed := tr.elapsed + dt }
  (tr1, decide (tr1.elapsed ≥ tr1.duration))

/-- `HeightTrajectory::current`. -/
def HeightTrajectory.current (tr : HeightTrajectory) : ℚ :=
  tr.sample tr.elapsed

/-- `HeightTrajectory::current_velocity`. -/
def HeightTrajectory.current_velocity (tr : HeightTrajectory) : ℚ :=
  tr.sample_velocity tr.elapsed

/-- Bobble animation generator (`BobbleAnimation`). -/
structure BobbleAnimation where
  center_height : ℚ
  amplitude : ℚ
  frequency : ℚ
  phase : ℚ
  duration : Option ℚ
  elapsed : ℚ
  deriving DecidableEq, Repr

/-- `BobbleAnimation::new`. -/
def BobbleAnimation.new (center amplitude frequency : ℚ) : BobbleAnimation :=
  { center_height := center, amplitude := amplitude, frequency := frequency
    phase := 0, duration := none, elapsed := 0 }

/-- The `if let Some(dur) = duration { t >= dur }` guard of the samplers. -/
def BobbleAnimation.pastDuration (a : BobbleAnimation) (t : ℚ) : Bool :=
  match a.duration with
  | some dur => decide (t ≥ dur)
  | none => false

/-- `BobbleAnimation::sample`. -/
def BobbleAnimation.sample (env : LibmEnv) (a : BobbleAnimation) (t : ℚ) : ℚ :=
  if a.pastDuration t then a.center_height
  else
    let omega := 2 * env.pi * a.frequency
    a.center_height + a.amplitude * env.sinf (omega * t + a.phase)

/-- `BobbleAnimation::sample_velocity`. -/
def BobbleAnimation.sample_velocity (env : LibmEnv) (a : BobbleAnimation)
    (t : ℚ) : ℚ :=
  if a.pastDuration t then 0
  else
    let omega := 2 * env.pi * a.frequency
    a.amplitude * omega * env.cosf (omega * t + a.phase)

/-- `BobbleAnimation::update`. -/
def BobbleAnimation.update (a : BobbleAnimation) (dt : ℚ) :
    BobbleAnimation × Bool :=
  let a1 := { a with elapsed := a.elapsed + dt }
  (a1, match a1.duration with
       | some dur => decide (a1.elapsed ≥ dur)
       | none => false)

/-- `BobbleAnimation::current`. -/
def BobbleAnimation.current (env : LibmEnv) (a : BobbleAnimation) : ℚ :=
  a.sample env a.elapsed

/-- `BobbleAnimation::current_velocity`. -/
def BobbleAnimation.current_velocity (env : LibmEnv) (a : BobbleAnimation) : ℚ :=
  a.sample_velocity env a.elapsed

/-- Combined height motion generator (`HeightMotionGenerator`). -/
structure HeightMotionGenerator where
  trajectory : Option HeightTrajectory
  animation : Option BobbleAnimation
  baseline_height : ℚ
  deriving DecidableEq, Repr

/-- `HeightMotionGenerator::new()`. -/
def HeightMotionGenerator.new : HeightMotionGenerator :=
  { trajectory := none, animation := none, baseline_height := HEIGHT_FLOAT_MM }

/-- `HeightMotionGenerator::start_trajectory`. -/
def HeightMotionGenerator.start_trajectory (g : HeightMotionGenerator)
    (traj : HeightTrajectory) : HeightMotionGenerator :=
  { g with animation := none, trajectory := some traj }

/-- `HeightMotionGenerator::start_animation`. -/
def HeightMotionGenerator.start_animation (g : HeightMotionGenerator)
    (anim : BobbleAnimation) : HeightMotionGenerator :=
  { g with trajectory := none, animation := some anim }

/-- `HeightMotionGenerator::stop`. -/
def HeightMotionGenerator.stop (g : HeightMotionGenerator)
    (current_height : ℚ) : HeightMotionGenerator :=
  { g with trajectory := none, animation := none, baseline_height := current_height }

/-- `HeightMotionGenerator::update`: returns the advanced generator and the
`(target_height, target_velocity)` pair. -/
def HeightMotionGenerator.update (env : LibmEnv) (g : HeightMotionGenerator)
    (dt : ℚ) : HeightMotionGenerator × (ℚ × ℚ) :=
  match g.trajectory with
  | some traj =>
    let u := traj.update dt
    if u.2 then
      let g1 := { g with baseline_height := u.1.target_height, trajectory := none }
      (g1, (g1.baseline_height, 0))
    else
      ({ g with trajectory := some u.1 }, (u.1.current, u.1.current_velocity))
  | none =>
    match g.animation with
    | some anim =>
      let u := anim.update dt
      if u.2 then
        ({ g with animation := none }, (g.baseline_height, 0))
      else
        ({ g with animation := some u.1 }, (u.1.current env, u.1.current_velocity env))
    | none => (g, (g.baseline_height, 0))

/-! ### Estimators (`levitation/controller.rs`) -/

/-- Simple velocity estimator using finite difference with filtering
(`VelocityFilter`). -/
structure VelocityFilter where
  last_height : ℚ
  velocity : ℚ
  alpha : ℚ
  deriving DecidableEq, Repr

/-- `VelocityFilter::new()`. -/
def VelocityFilter.new : VelocityFilter :=
  { last_height := 0, velocity := 0, alpha := 3 / 10 }

/-- `VelocityFilter::update`. -/
def VelocityFilter.update (f : VelocityFilter) (height dt : ℚ) : VelocityFilter :=
  if dt > 0 then
    let raw_velocity := (height - f.last_height) / dt
    { f with
      velocity := f.alpha * raw_velocity + (1 - f.alpha) * f.velocity
      last_height := height }
  else f

/-- Oscillation amplitude detector (`OscillationDetector`); the fixed
`[f32; 32]` buffer is a 32-element list. -/
structure OscillationDetector where
  samples : List ℚ
  index : ℕ
  filled : Bool
  deriving DecidableEq, Repr

/-- `OscillationDetector::new()`. -/
def OscillationDetector.new : OscillationDetector :=
  { samples := List.replicate 32 0, index := 0, filled := false }

/-- `OscillationDetector::update`. -/
def OscillationDetector.update (d : OscillationDetector) (height : ℚ) :
    OscillationDetector :=
  let samples := d.samples.set d.index height
  let index := (d.index + 1) % 32
  { samples := samples, index := index
    filled := if index = 0 then true else d.filled }

/-- `OscillationDetector::amplitude`: max − min over the buffer once filled,
folding from `(f32::MAX, f32::MIN)`. -/
def OscillationDetector.amplitude (d : OscillationDetector) : ℚ :=
  if d.filled = false then 0
  else
    let p := d.samples.foldl
      (fun (mm : ℚ × ℚ) s =>
        (if s < mm.1 then s else mm.1, if s > mm.2 then s else mm.2))
      (f32MAX, -f32MAX)
    p.2 - p.1

/-! ### Height controller (`levitation/controller.rs`) -/

/-- Height controller for the levitation system (`HeightController`). -/
structure HeightController where
  height_cal : CalibrationData
  wpt_cal : WptCalibrationData
  motion : HeightMotionGenerator
  state : LevitationState
  mode : LevitationMode
  safety_verifier : LevitationSafetyVerifier
  interlock : SafetyInterlockManager
  last_adc_value : ℕ
  last_dac_voltage : ℚ
  velocity_filter : VelocityFilter
  oscillation_detector : OscillationDetector
  deriving Repr

/-- `HeightController::new()`. -/
def HeightController.new : HeightController :=
  { height_cal := CalibrationData.dfault
    wpt_cal := WptCalibrationData.dfault
    motion := HeightMotionGenerator.new
    state := LevitationState.dfault
    mode := LevitationMode.Lifted
    safety_verifier := LevitationSafetyVerifier.new
    interlock := SafetyInterlockManager.new
    last_adc_value := 0
    last_dac_voltage := 3 / 2
    velocity_filter := VelocityFilter.new
    oscillation_detector := OscillationDetector.new }

/-- `HeightController::set_calibration`: load calibration data. -/
def HeightController.set_calibration (c : HeightController)
    (height : CalibrationData) (wpt : WptCalibrationData) : HeightController :=
  { c with height_cal := height, wpt_cal := wpt }

/-- The first phase of `HeightController::update`: sensor conversion, filter
advancement and assembly of the fresh `LevitationState` snapshot. -/
def HeightController.tickSnapshot (c : HeightController) (adc_value : ℕ)
    (power_ok : Bool) (coil_temp : ℚ) :
    VelocityFilter × OscillationDetector × LevitationState :=
  let dt : ℚ := 1 / (CONTROL_RATE_HZ : ℚ)
  let height_mm := c.height_cal.adc_to_height adc_value
  let vf := c.velocity_filter.update height_mm dt
  let od := c.oscillation_detector.update height_mm
  let st := { c.state with
    height_mm := height_mm
    velocity_mm_s := vf.velocity
    oscillation_amplitude_mm := od.amplitude
    electromagnet_temp_c := coil_temp
    power_supply_ok := power_ok
    stable := decide (od.amplitude < MAX_OSCILLATION_MM * (7 / 10))
    mode := c.mode }
  (vf, od, st)

/-- `HeightController::update`: the 100 Hz control tick. Returns the new
controller and `Ok((dac_voltage, wpt_frequency))`. -/
def HeightController.update (env : LibmEnv) (c : HeightController)
    (adc_value : ℕ) (power_ok : Bool) (coil_temp : ℚ) :
    HeightController × BaseResult (ℚ × ℚ) :=
  let dt : ℚ := 1 / (CONTROL_RATE_HZ : ℚ)
  let snap := c.tickSnapshot adc_value power_ok coil_temp
  let st := snap.2.2
  let safety_result := c.safety_verifier.compute_barrier st
  let upd := c.interlock.update safety_result
  let c1 := { c with
    velocity_filter := snap.1
    oscillation_detector := snap.2.1
    state := st
    interlock := upd.1 }
  if upd.2 then
    ({ c1 with mode := LevitationMode.EmergencyLanding }, Except.ok (0, 0))
  else
    let mu := HeightMotionGenerator.update env c1.motion dt
    let target_height := mu.2.1
    let corrected_height :=
      if safety_result.safe = false then
        clampQ (target_height + c1.safety_verifier.corrective_action safety_result * dt)
          HEIGHT_MIN_MM HEIGHT_MAX_MM
      else target_height
    let dac_voltage := c1.height_cal.height_to_dac corrected_height
    let wpt_freq := c1.wpt_cal.optimal_frequency corrected_height
    ({ c1 with
        motion := mu.1
        last_adc_value := adc_value
        last_dac_voltage := dac_voltage },
      Except.ok (dac_voltage, wpt_freq))

/-- `HeightController::start_charging`. -/
def HeightController.start_charging (c : HeightController) :
    HeightController × BaseResult Unit :=
  if c.interlock.is_emergency then (c, Except.error BaseError.EmergencyLanding)
  else
    let trajectory := HeightTrajectory.to_charging c.state.height_mm
    ({ c with
        motion := c.motion.start_trajectory trajectory
        mode := LevitationMode.Charging HEIGHT_CHARGE_MM 0 },
      Except.ok ())

/-- `HeightController::stop_charging`. -/
def HeightController.stop_charging (c : HeightController) :
    HeightController × BaseResult Unit :=
  if c.interlock.is_emergency then (c, Except.error BaseError.EmergencyLanding)
  else
    let trajectory := HeightTrajectory.to_float c.state.height_mm
    ({ c with
        motion := c.motion.start_trajectory trajectory
        mode := LevitationMode.Float HEIGHT_FLOAT_MM },
      Except.ok ())

/-- `HeightController::set_height` (`duration_ms : u32`). -/
def HeightController.set_height (c : HeightController) (target_mm : ℚ)
    (duration_ms : ℕ) : HeightController × BaseResult Unit :=
  if c.interlock.is_emergency then (c, Except.error BaseError.EmergencyLanding)
  else if target_mm < HEIGHT_MIN_MM ∨ target_mm > HEIGHT_MAX_MM then
    (c, Except.error BaseError.HeightOutOfRange)
  else
    let duration_s := (duration_ms : ℚ) / 1000
    let trajectory := HeightTrajectory.new c.state.height_mm target_mm duration_s
    ({ c with
        motion := c.motion.start_trajectory trajectory
        mode := LevitationMode.Float target_mm },
      Except.ok ())

/-- `HeightController::start_bobble`. -/
def HeightController.start_bobble (c : HeightController) (amplitude_mm : ℚ)
    (frequency_hz : ℚ) : HeightController × BaseResult Unit :=
  if c.interlock.is_emergency then (c, Except.error BaseError.EmergencyLanding)
  else if amplitude_mm < 1 ∨ amplitude_mm > MAX_BOBBLE_AMPLITUDE_MM then
    (c, Except.error BaseError.InvalidAmplitude)
  else if frequency_hz < MIN_BOBBLE_FREQ_HZ ∨ frequency_hz > MAX_BOBBLE_FREQ_HZ then
    (c, Except.error BaseError.InvalidFrequency)
  else
    let center := c.state.height_mm
    if center - amplitude_mm < HEIGHT_MIN_MM ∨ center + amplitude_mm > HEIGHT_MAX_MM then
      (c, Except.error BaseError.HeightOutOfRange)
    else
      let animation := BobbleAnimation.new center amplitude_mm frequency_hz
      ({ c with
          motion := c.motion.start_animation animation
          mode := LevitationMode.Bobble center amplitude_mm frequency_hz },
        Except.ok ())

/-- `HeightController::stop_bobble`: note there is no emergency check. -/
def HeightController.stop_bobble (c : HeightController) :
    HeightController × BaseResult Unit :=
  ({ c with
      motion := c.motion.stop c.state.height_mm
      mode := LevitationMode.Float c.state.height_mm },
    Except.ok ())

/-- `HeightController::land`: note there is no emergency check. -/
def HeightController.land (c : HeightController) :
    HeightController × BaseResult Unit :=
  let trajectory := HeightTrajectory.new c.state.height_mm HEIGHT_MIN_MM 3
  ({ c with
      motion := c.motion.start_trajectory trajectory
      mode := LevitationMode.Landing c.state.height_mm 5 },
    Except.ok ())

/-- `HeightController::emergency_land`. -/
def HeightController.emergency_land (c : HeightController) : HeightController :=
  { c with
    interlock := c.interlock.trigger_lockout
    mode := LevitationMode.EmergencyLanding }

/-- `HeightController::reset`. -/
def HeightController.reset (c : HeightController) :
    HeightController × BaseResult Unit :=
  ({ c with
      interlock := c.interlock.reset
      motion := c.motion.stop c.state.height_mm
      mode := LevitationMode.Float HEIGHT_FLOAT_MM },
    Except.ok ())

/-- `HeightController::is_emergency`. -/
def HeightController.is_emergency (c : HeightController) : Bool :=
  c.interlock.is_emergency

/-- `HeightController::on_orb_lifted`. -/
def HeightController.on_orb_lifted (c : HeightController) : HeightController :=
  { c with mode := LevitationMode.Lifted, motion := c.motion.stop 0 }

/-- `HeightController::on_orb_placed`: gated on lockout, not on emergency. -/
def HeightController.on_orb_placed (c : HeightController) : HeightController :=
  if c.interlock.is_locked_out = false then
    { c with
      mode := LevitationMode.Float HEIGHT_FLOAT_MM
      motion := c.motion.start_trajectory
        (HeightTrajectory.new HEIGHT_MIN_MM HEIGHT_FLOAT_MM (3 / 2)) }
  else c

/-! ### Concrete instances used as theorem inputs -/

/-- A concrete safe `SafetyResult` with comfortable margin, used as input. -/
def safeResult : SafetyResult :=
  { safe := true, margin := 1, limiting_constraint := SafetyCode.None
    constraints := { h_height_upper := 1, h_height_lower := 1, h_descent_rate := 1
                     h_oscillation := 1, h_thermal := 1, h_power := 1 } }

/-- A concrete unsafe `SafetyResult`, as produced for a violating state. -/
def unsafeResult : SafetyResult :=
  { safe := false, margin := -1, limiting_constraint := SafetyCode.PowerFailure
    constraints := { h_height_upper := 1, h_height_lower := 1, h_descent_rate := 1
                     h_oscillation := 1, h_thermal := 1, h_power := -1 } }

/-- A non-lockout emergency interlock state with `safe_cycles = 0`. -/
def emergencyInterlock : SafetyInterlockManager :=
  { safe_cycles := 0, violation_cycles := 5, last_margin := -1
    emergency_active := true, lockout := false }

/-- The interlock state right after `trigger_lockout` on a fresh manager. -/
def lockedInterlock : SafetyInterlockManager :=
  SafetyInterlockManager.new.trigger_lockout

/-- A state with power failed AND the electromagnet at 85 °C (thermal
barrier exactly −1, tying the power barrier). -/
def powerThermalState : LevitationState :=
  { height_mm := 15, velocity_mm_s := 0, oscillation_amplitude_mm := 1
    electromagnet_temp_c := 85, wpt_coil_temp_c := 45, power_supply_ok := false
    mode := LevitationMode.Float 15, orb_present := true, stable := true }

/-- A nominal state except for `power_supply_ok = false`. -/
def powerFailState : LevitationState :=
  { height_mm := 15, velocity_mm_s := 0, oscillation_amplitude_mm := 1
    electromagnet_temp_c := 50, wpt_coil_temp_c := 45, power_supply_ok := false
    mode := LevitationMode.Float 15, orb_present := true, stable := true }

/-- A controller floating at a nominal 15 mm, no emergency. -/
def bobbleController : HeightController :=
  { HeightController.new with
    state := { LevitationState.dfault with height_mm := 15 } }

/-- A controller at 15 mm whose interlock reports a (non-lockout) emergency,
as after five consecutive violation cycles. -/
def emergencyController : HeightController :=
  { HeightController.new with
    state := { LevitationState.dfault with height_mm := 15 }
    interlock := emergencyInterlock }

/-- A controller one violation cycle away from emergency. -/
def preEmergencyController : HeightController :=
  { HeightController.new with
    interlock := { SafetyInterlockManager.new with violation_cycles := 4 } }

/-- One concrete interpretation of the libm environment, used only to
instantiate witnesses (no claim depends on its values). -/
def zeroLibm : LibmEnv :=
  { sinf := fun _ => 0, cosf := fun _ => 0, pi := 0 }

/-- A calibration table with only 2 points: invalid per `is_valid`. -/
def invalidCalibration : CalibrationData :=
  { CalibrationData.dfault with num_points := 2 }

/-- A valid calibration table whose first height (3 mm) lies below the
controller's `HEIGHT_MIN_MM` clamp of 5 mm. -/
def lowStartTable : CalibrationData :=
  { points :=
      [{ height_mm := 3, adc_value := 3800, dac_voltage := 5 / 2 },
       { height_mm := 20, adc_value := 2000, dac_voltage := 3 / 2 },
       { height_mm := 25, adc_value := 1400, dac_voltage := 1 / 2 },
       CalibrationPoint.dfault, CalibrationPoint.dfault]
    num_points := 3
    version := 1
    serial := 0 }

/-! ## Helper lemmas about the interlock manager -/

/-- `update` never writes the lockout flag. -/
theorem interlock_update_lockout (m : SafetyInterlockManager) (r : SafetyResult) :
    ((m.update r).1).lockout = m.lockout := by
  simp only [SafetyInterlockManager.update]
  cases hr : r.safe <;> simp [hr] <;> split_ifs <;> rfl

/-- Under lockout, `update` never clears an active emergency. -/
theorem interlock_update_locked_emergency (m : SafetyInterlockManager)
    (r : SafetyResult) (hl : m.lockout = true) (he : m.emergency_active = true) :
    ((m.update r).1).emergency_active = true := by
  simp only [SafetyInterlockManager.update]
  cases hr : r.safe <;> simp [hr, hl, he]

/-- Folding any sequence of results never changes the lockout flag. -/
theorem interlock_fold_lockout (m : SafetyInterlockManager)
    (rs : List SafetyResult) : (foldUpdates m rs).lockout = m.lockout := by
  induction rs generalizing m with
  | nil => rfl
  | cons r rest ih =>
    simp only [foldUpdates, List.foldl_cons] at *
    rw [ih, interlock_update_lockout]

/-- Under lockout with an active emergency, folding any sequence of results
keeps the emergency active. -/
theorem interlock_fold_locked_emergency (m : SafetyInterlockManager)
    (rs : List SafetyResult) (hl : m.lockout = true)
    (he : m.emergency_active = true) :
    (foldUpdates m rs).emergency_active = true := by
  induction rs generalizing m with
  | nil => exact he
  | cons r rest ih =>
    simp only [foldUpdates, List.foldl_cons] at *
    exact ih _ (by rw [interlock_update_lockout]; exact hl)
      (interlock_update_locked_emergency m r hl he)

/-- A safe result increments the safe-cycle counter. -/
theorem interlock_update_safe_cycles (m : SafetyInterlockManager)
    (r : SafetyResult) (hr : r.safe = true) :
    ((m.update r).1).safe_cycles = m.safe_cycles + 1 := by
  simp only [SafetyInterlockManager.update, hr, if_true]
  split_ifs <;> rfl

/-- Effect of a safe result on the emergency flag when not locked out. -/
theorem interlock_update_safe_emergency (m : SafetyInterlockManager)
    (r : SafetyResult) (hr : r.safe = true) (hl : m.lockout = false) :
    ((m.update r).1).emergency_active =
      (if m.safe_cycles + 1 > 100 then false else m.emergency_active) := by
  simp only [SafetyInterlockManager.update, hr, if_true, hl]
  split_ifs <;> simp_all

/-- Characterization of folding an all-safe sequence through a non-locked-out
interlock: the emergency flag survives exactly when the safe-cycle counter
never exceeds 100. -/
theorem interlock_fold_safe_emergency (rs : List SafetyResult)
    (m : SafetyInterlockManager) (hl : m.lockout = false)
    (hall : ∀ r ∈ rs, r.safe = true) :
    (foldUpdates m rs).emergency_active =
      (m.emergency_active &&
        decide (rs.length = 0 ∨ m.safe_cycles + rs.length ≤ 100)) := by
  induction rs generalizing m with
  | nil => simp [foldUpdates]
  | cons r rest ih =>
    have hr : r.safe = true := hall r (List.mem_cons_self r rest)
    have hrest : ∀ x ∈ rest, x.safe = true := fun x hx => hall x (List.mem_cons_of_mem r hx)
    simp only [foldUpdates, List.foldl_cons]
    rw [show (rest.foldl (fun s x => (s.update x).1) ((m.update r).1)) =
        foldUpdates ((m.update r).1) rest from rfl]
    rw [ih ((m.update r).1) (by rw [interlock_update_lockout]; exact hl) hrest]
    rw [interlock_update_safe_emergency m r hr hl, interlock_update_safe_cycles m r hr]
    by_cases hc : m.safe_cycles + 1 > 100
    · have hno : ¬ (((r :: rest).length) = 0 ∨
          m.safe_cycles + (r :: rest).length ≤ 100) := by
        simp only [List.length_cons]; omega
      rw [if_pos hc, decide_eq_false hno]
      simp
    · have hiff : (rest.length = 0 ∨ m.safe_cycles + 1 + rest.length ≤ 100) ↔
          (((r :: rest).length) = 0 ∨ m.safe_cycles + (r :: rest).length ≤ 100) := by
        simp only [List.length_cons]; omega
      rw [if_neg hc, decide_eq_decide.mpr hiff]

/-! ## C3 -/

/-- C3, counterexample: from a non-lockout emergency with `safe_cycles = 0`,
feeding exactly 100 consecutive safe results does NOT clear the emergency —
`is_emergency()` is still `true` after the 100th safe update, because the code
requires `safe_cycles > 100`. -/
theorem C3_counterexample :
    (foldUpdates emergencyInterlock
      (List.replicate 100 safeResult)).is_emergency = true := by
  rw [SafetyInterlockManager.is_emergency,
    interlock_fold_safe_emergency _ _ rfl (by intro r hr; rw [List.eq_of_mem_replicate hr]; rfl)]
  simp [emergencyInterlock]

/-- C3, amended: clearing a non-lockout emergency takes 101 (not 100)
consecutive safe results when starting from `safe_cycles = 0`; after the 101st
safe update `is_emergency()` returns `false`. -/
theorem C3_theorem (m : SafetyInterlockManager) (rs : List SafetyResult)
    (hem : m.emergency_active = true) (hl : m.lockout = false)
    (hsc : m.safe_cycles = 0) (hall : ∀ r ∈ rs, r.safe = true)
    (hlen : rs.length = 101) :
    (foldUpdates m rs).is_emergency = false := by
  rw [SafetyInterlockManager.is_emergency,
    interlock_fold_safe_emergency rs m hl hall, hem, hsc, hlen]
  simp

/-- C3, witness for the amended theorem at a concrete emergency state and a
concrete list of 101 safe results. -/
theorem C3_witness :
    (foldUpdates emergencyInterlock
      (List.replicate 101 safeResult)).is_emergency = false :=
  C3_theorem emergencyInterlock (List.replicate 101 safeResult) rfl rfl rfl
    (by intro r hr; rw [List.eq_of_mem_replicate hr]; rfl) (by simp)

/-! ## C4 -/

/-- C4: from a fresh (or just-reset) interlock, any 4 consecutive unsafe
results never declare emergency (`update` returns `false` each time) and the
5th consecutive unsafe result declares it (`update` returns `true` and
`is_emergency()` becomes `true`). -/
theorem C4_theorem (m : SafetyInterlockManager) (rs : List SafetyResult)
    (hv : m.violation_cycles = 0) (hem : m.emergency_active = false)
    (hall : ∀ r ∈ rs, r.safe = false) (hlen : rs.length = 5) :
    runOutputs m rs = [false, false, false, false, true]
      ∧ (foldUpdates m rs).is_emergency = true := by
  rcases rs with _ | ⟨a, _ | ⟨b, _ | ⟨c, _ | ⟨d, _ | ⟨e, _ | ⟨f, rest⟩⟩⟩⟩⟩⟩ <;>
    try (exfalso; simp only [List.length_cons, List.length_nil] at hlen; omega)
  have ha := hall a (by simp)
  have hb := hall b (by simp)
  have hc := hall c (by simp)
  have hd := hall d (by simp)
  have he := hall e (by simp)
  refine ⟨?_, ?_⟩ <;>
    simp [runOutputs, foldUpdates, SafetyInterlockManager.update,
      SafetyInterlockManager.is_emergency, ha, hb, hc, hd, he, hv, hem]

/-- C4, witness at a fresh manager and five concrete unsafe results. -/
theorem C4_witness :
    runOutputs SafetyInterlockManager.new (List.replicate 5 unsafeResult) =
        [false, false, false, false, true]
      ∧ (foldUpdates SafetyInterlockManager.new
          (List.replicate 5 unsafeResult)).is_emergency = true :=
  C4_theorem SafetyInterlockManager.new (List.replicate 5 unsafeResult) rfl rfl
    (by intro r hr; rw [List.eq_of_mem_replicate hr]; rfl) (by simp)

/-! ## C5 -/

/-- C5: the invariant `lockout = true → emergency_active = true` is preserved
by `update`, `trigger_lockout` and `reset`; and once lockout is set (with the
emergency it implies active), no sequence of `update` calls — however many
safe results are fed — clears lockout or the emergency. -/
theorem C5_theorem :
    (∀ (m : SafetyInterlockManager) (r : SafetyResult),
        (m.lockout = true → m.emergency_active = true) →
        (((m.update r).1).lockout = true → ((m.update r).1).emergency_active = true))
    ∧ (∀ m : SafetyInterlockManager,
        m.trigger_lockout.lockout = true → m.trigger_lockout.emergency_active = true)
    ∧ (∀ m : SafetyInterlockManager,
        m.reset.lockout = true → m.reset.emergency_active = true)
    ∧ (∀ (m : SafetyInterlockManager) (rs : List SafetyResult),
        m.lockout = true → m.emergency_active = true →
        (foldUpdates m rs).lockout = true
          ∧ (foldUpdates m rs).emergency_active = true) := by
  refine ⟨?_, ?_, ?_, ?_⟩
  · intro m r hinv hl
    rw [interlock_update_lockout] at hl
    exact interlock_update_locked_emergency m r hl (hinv hl)
  · intro m _
    rfl
  · intro m h
    simp [SafetyInterlockManager.reset] at h
  · intro m rs hl he
    exact ⟨by rw [interlock_fold_lockout]; exact hl,
      interlock_fold_locked_emergency m rs hl he⟩

/-- C5, witness: a locked-out interlock fed 200 safe results stays locked out
and in emergency. -/
theorem C5_witness :
    (foldUpdates lockedInterlock (List.replicate 200 safeResult)).lockout = true
      ∧ (foldUpdates lockedInterlock
          (List.replicate 200 safeResult)).emergency_active = true :=
  C5_theorem.2.2.2 lockedInterlock (List.replicate 200 safeResult) rfl rfl

/-! ## Helper lemmas about the barrier fold -/

/-- The min-fold result is the initial accumulator or one of the list items. -/
theorem foldMinAux_mem (l : List (ℚ × SafetyCode)) (acc : ℚ × SafetyCode) :
    l.foldl (fun a pc => if pc.1 < a.1 then pc else a) acc = acc
      ∨ l.foldl (fun a pc => if pc.1 < a.1 then pc else a) acc ∈ l := by
  induction l generalizing acc with
  | nil => exact Or.inl rfl
  | cons p rest ih =>
    simp only [List.foldl_cons]
    rcases ih (if p.1 < acc.1 then p else acc) with h | h
    · rw [h]
      split_ifs
      · exact Or.inr (List.mem_cons_self p rest)
      · exact Or.inl rfl
    · exact Or.inr (List.mem_cons_of_mem p h)

/-- The min-fold result is below the initial accumulator and every item. -/
theorem foldMinAux_le (l : List (ℚ × SafetyCode)) (acc : ℚ × SafetyCode) :
    (l.foldl (fun a pc => if pc.1 < a.1 then pc else a) acc).1 ≤ acc.1
      ∧ ∀ p ∈ l, (l.foldl (fun a pc => if pc.1 < a.1 then pc else a) acc).1 ≤ p.1 := by
  induction l generalizing acc with
  | nil => exact ⟨le_refl _, by simp⟩
  | cons q rest ih =>
    simp only [List.foldl_cons]
    have hacc : (if q.1 < acc.1 then q else acc).1 ≤ acc.1 := by
      split_ifs with h
      · exact le_of_lt h
      · exact le_refl _
    have hq : (if q.1 < acc.1 then q else acc).1 ≤ q.1 := by
      split_ifs with h
      · exact le_refl _
      · exact le_of_not_lt h
    obtain ⟨h1, h2⟩ := ih (if q.1 < acc.1 then q else acc)
    refine ⟨le_trans h1 hacc, ?_⟩
    intro p hp
    rcases List.mem_cons.mp hp with rfl | hp'
    · exact le_trans h1 hq
    · exact h2 p hp'

/-! ## C6 -/

/-- C6, counterexample: with `power_supply_ok = false` but the electromagnet
at 85 °C, `compute_barrier` reports `limiting_constraint = Thermal`, not
`PowerFailure` — the thermal barrier also evaluates to −1 and ties are won by
the earlier entry in evaluation order. -/
theorem C6_counterexample :
    powerThermalState.power_supply_ok = false
      ∧ (LevitationSafetyVerifier.new.compute_barrier powerThermalState).safe = false
      ∧ (LevitationSafetyVerifier.new.compute_barrier
          powerThermalState).limiting_constraint = SafetyCode.Thermal
      ∧ (LevitationSafetyVerifier.new.compute_barrier
          powerThermalState).limiting_constraint ≠ SafetyCode.PowerFailure := by
  refine ⟨rfl, ?_, ?_, ?_⟩ <;>
    norm_num [LevitationSafetyVerifier.compute_barrier, foldMin,
      LevitationSafetyVerifier.new, LevitationSafetyVerifier.h_height_upper,
      LevitationSafetyVerifier.h_height_lower, LevitationSafetyVerifier.h_descent_rate,
      LevitationSafetyVerifier.h_oscillation, LevitationSafetyVerifier.h_thermal,
      LevitationSafetyVerifier.h_power, powerThermalState, f32MAX,
      HEIGHT_MAX_MM, HEIGHT_MIN_MM, MAX_DESCENT_RATE_MM_S, MAX_OSCILLATION_MM,
      MAX_COIL_TEMP_C, WARN_COIL_TEMP_C] <;> decide

/-- C6, amended: `power_supply_ok = false` always forces `safe = false`
(the margin is at most −1); the limiting constraint is `PowerFailure`
whenever each of the other five barrier values exceeds −1, but an earlier
constraint at or below −1 (e.g. thermal at the hard maximum) wins instead. -/
theorem C6_theorem (v : LevitationSafetyVerifier) (s : LevitationState)
    (hpow : s.power_supply_ok = false) :
    (v.compute_barrier s).safe = false
      ∧ (v.h_height_upper s > -1 → v.h_height_lower s > -1 →
         v.h_descent_rate s > -1 → v.h_oscillation s > -1 →
         v.h_thermal s > -1 →
         (v.compute_barrier s).limiting_constraint = SafetyCode.PowerFailure) := by
  have hp : v.h_power s = -1 := by
    simp [LevitationSafetyVerifier.h_power, hpow]
  constructor
  · show decide ((foldMin
      [(v.h_height_upper s, SafetyCode.HeightUpperBound),
       (v.h_height_lower s, SafetyCode.HeightLowerBound),
       (v.h_descent_rate s, SafetyCode.DescentRate),
       (v.h_oscillation s, SafetyCode.Oscillation),
       (v.h_thermal s, SafetyCode.Thermal),
       (v.h_power s, SafetyCode.PowerFailure)]).1 > 0) = false
    rw [hp]
    have hle : (foldMin
        [(v.h_height_upper s, SafetyCode.HeightUpperBound),
         (v.h_height_lower s, SafetyCode.HeightLowerBound),
         (v.h_descent_rate s, SafetyCode.DescentRate),
         (v.h_oscillation s, SafetyCode.Oscillation),
         (v.h_thermal s, SafetyCode.Thermal),
         ((-1 : ℚ), SafetyCode.PowerFailure)]).1 ≤ -1 :=
      (foldMinAux_le
        [(v.h_height_upper s, SafetyCode.HeightUpperBound),
         (v.h_height_lower s, SafetyCode.HeightLowerBound),
         (v.h_descent_rate s, SafetyCode.DescentRate),
         (v.h_oscillation s, SafetyCode.Oscillation),
         (v.h_thermal s, SafetyCode.Thermal),
         ((-1 : ℚ), SafetyCode.PowerFailure)]
        (f32MAX, SafetyCode.None)).2 ((-1 : ℚ), SafetyCode.PowerFailure) (by simp)
    exact decide_eq_false (by intro hgt; linarith)
  · intro h1 h2 h3 h4 h5
    show (foldMin
      [(v.h_height_upper s, SafetyCode.HeightUpperBound),
       (v.h_height_lower s, SafetyCode.HeightLowerBound),
       (v.h_descent_rate s, SafetyCode.DescentRate),
       (v.h_oscillation s, SafetyCode.Oscillation),
       (v.h_thermal s, SafetyCode.Thermal),
       (v.h_power s, SafetyCode.PowerFailure)]).2 = SafetyCode.PowerFailure
    rw [hp]
    show (([(v.h_height_upper s, SafetyCode.HeightUpperBound),
       (v.h_height_lower s, SafetyCode.HeightLowerBound),
       (v.h_descent_rate s, SafetyCode.DescentRate),
       (v.h_oscillation s, SafetyCode.Oscillation),
       (v.h_thermal s, SafetyCode.Thermal)] ++
        [((-1 : ℚ), SafetyCode.PowerFailure)]).foldl
          (fun acc pc => if pc.1 < acc.1 then pc else acc)
          (f32MAX, SafetyCode.None)).2 = SafetyCode.PowerFailure
    rw [List.foldl_append]
    have hgt : (-1 : ℚ) <
        (List.foldl (fun acc pc => if pc.1 < acc.1 then pc else acc)
          (f32MAX, SafetyCode.None)
          [(v.h_height_upper s, SafetyCode.HeightUpperBound),
           (v.h_height_lower s, SafetyCode.HeightLowerBound),
           (v.h_descent_rate s, SafetyCode.DescentRate),
           (v.h_oscillation s, SafetyCode.Oscillation),
           (v.h_thermal s, SafetyCode.Thermal)]).1 := by
      rcases foldMinAux_mem
        [(v.h_height_upper s, SafetyCode.HeightUpperBound),
         (v.h_height_lower s, SafetyCode.HeightLowerBound),
         (v.h_descent_rate s, SafetyCode.DescentRate),
         (v.h_oscillation s, SafetyCode.Oscillation),
         (v.h_thermal s, SafetyCode.Thermal)]
        (f32MAX, SafetyCode.None) with h | h
      · rw [h]
        norm_num [f32MAX]
      · simp only [List.mem_cons, List.not_mem_nil, or_false] at h
        rcases h with h | h | h | h | h <;> rw [h] <;> assumption
    generalize hacc : List.foldl (fun acc pc => if pc.1 < acc.1 then pc else acc)
        (f32MAX, SafetyCode.None)
        [(v.h_height_upper s, SafetyCode.HeightUpperBound),
         (v.h_height_lower s, SafetyCode.HeightLowerBound),
         (v.h_descent_rate s, SafetyCode.DescentRate),
         (v.h_oscillation s, SafetyCode.Oscillation),
         (v.h_thermal s, SafetyCode.Thermal)] = acc5
    rw [hacc] at hgt
    simp only [List.foldl_cons, List.foldl_nil]
    rw [if_pos hgt]

/-- C6, witness for the amended theorem at a nominal state with failed
power. -/
theorem C6_witness :
    (LevitationSafetyVerifier.new.compute_barrier powerFailState).safe = false
      ∧ (LevitationSafetyVerifier.new.compute_barrier
          powerFailState).limiting_constraint = SafetyCode.PowerFailure := by
  have h := C6_theorem LevitationSafetyVerifier.new powerFailState rfl
  refine ⟨h.1, h.2 ?_ ?_ ?_ ?_ ?_⟩ <;>
    norm_num [LevitationSafetyVerifier.h_height_upper,
      LevitationSafetyVerifier.h_height_lower, LevitationSafetyVerifier.h_descent_rate,
      LevitationSafetyVerifier.h_oscillation, LevitationSafetyVerifier.h_thermal,
      LevitationSafetyVerifier.new, powerFailState, HEIGHT_MAX_MM, HEIGHT_MIN_MM,
      MAX_DESCENT_RATE_MM_S, MAX_OSCILLATION_MM, MAX_COIL_TEMP_C, WARN_COIL_TEMP_C]

/-! ## C9 -/

/-- C9: for every constructed trajectory (duration floored to at least 0.1 s),
`sample(t)` is `start` for `t ≤ 0`, `target` for `t ≥ duration`, and the
smoothstep blend `start + (3s² − 2s³)·(target − start)` with `s = t/duration`
in between; `sample_velocity(t)` is 0 outside `(0, duration)` and
`6s(1−s)·(target − start)/duration` inside. -/
theorem C9_theorem (start target dur t : ℚ) :
    (t ≤ 0 → (HeightTrajectory.new start target dur).sample t = start)
    ∧ (t ≥ (HeightTrajectory.new start target dur).duration →
        (HeightTrajectory.new start target dur).sample t = target)
    ∧ (0 < t → t < (HeightTrajectory.new start target dur).duration →
        (HeightTrajectory.new start target dur).sample t =
          start + (3 * (t / (HeightTrajectory.new start target dur).duration) ^ 2
            - 2 * (t / (HeightTrajectory.new start target dur).duration) ^ 3)
            * (target - start))
    ∧ (t ≤ 0 → (HeightTrajectory.new start target dur).sample_velocity t = 0)
    ∧ (t ≥ (HeightTrajectory.new start target dur).duration →
        (HeightTrajectory.new start target dur).sample_velocity t = 0)
    ∧ (0 < t → t < (HeightTrajectory.new start target dur).duration →
        (HeightTrajectory.new start target dur).sample_velocity t =
          6 * (t / (HeightTrajectory.new start target dur).duration)
            * (1 - t / (HeightTrajectory.new start target dur).duration)
            * (target - start) / (HeightTrajectory.new start target dur).duration)
    ∧ (HeightTrajectory.new start target dur).duration ≥ 1 / 10 := by
  have hm : (1 : ℚ) / 10 ≤ max dur (1 / 10) := le_max_right _ _
  refine ⟨?_, ?_, ?_, ?_, ?_, ?_, le_max_right _ _⟩
  · intro ht
    simp only [HeightTrajectory.sample, HeightTrajectory.new]
    rw [if_neg (by intro h; linarith), if_pos ht]
  · intro ht
    simp only [HeightTrajectory.new] at ht
    simp only [HeightTrajectory.sample, HeightTrajectory.new]
    rw [if_pos ht]
  · intro h0 hlt
    simp only [HeightTrajectory.sample, HeightTrajectory.new] at hlt ⊢
    rw [if_neg (not_le.mpr hlt), if_neg (not_le.mpr h0)]
    ring
  · intro ht
    simp only [HeightTrajectory.sample_velocity, HeightTrajectory.new]
    rw [if_pos (Or.inl ht)]
  · intro ht
    simp only [HeightTrajectory.new] at ht
    simp only [HeightTrajectory.sample_velocity, HeightTrajectory.new]
    rw [if_pos (Or.inr ht)]
  · intro h0 hlt
    simp only [HeightTrajectory.sample_velocity, HeightTrajectory.new] at hlt ⊢
    rw [if_neg (by push_neg; exact ⟨h0, hlt⟩)]

/-- C9, witness at the trajectory from 20 mm to 5 mm over 2 s, sampled at
t = 1 s. -/
theorem C9_witness :
    (HeightTrajectory.new 20 5 2).sample 1 =
        20 + (3 * ((1 : ℚ) / (HeightTrajectory.new 20 5 2).duration) ^ 2
          - 2 * ((1 : ℚ) / (HeightTrajectory.new 20 5 2).duration) ^ 3) * (5 - 20)
      ∧ (HeightTrajectory.new 20 5 2).sample_velocity 1 =
        6 * ((1 : ℚ) / (HeightTrajectory.new 20 5 2).duration)
          * (1 - (1 : ℚ) / (HeightTrajectory.new 20 5 2).duration) * (5 - 20)
          / (HeightTrajectory.new 20 5 2).duration :=
  ⟨(C9_theorem 20 5 2 1).2.2.1 (by norm_num)
      (lt_of_lt_of_le (by norm_num) (le_max_left 2 (1 / 10))),
   (C9_theorem 20 5 2 1).2.2.2.2.2.1 (by norm_num)
      (lt_of_lt_of_le (by norm_num) (le_max_left 2 (1 / 10)))⟩

/-! ## C10 -/

/-- C10: any amplitude strictly below 1.0 mm is rejected by `start_bobble`
with `InvalidAmplitude` and the controller is unchanged, even when the
spec-stated preconditions (no emergency, amplitude below the 8 mm maximum,
frequency within [0.1, 2.0] Hz, center ± amplitude within [5, 25] mm) all
hold: the accepted amplitude range has an unstated lower bound of 1.0 mm. -/
theorem C10_theorem (c : HeightController) (amplitude_mm frequency_hz : ℚ)
    (hem : c.interlock.emergency_active = false)
    (hamp : amplitude_mm < 1)
    (_hmax : amplitude_mm < MAX_BOBBLE_AMPLITUDE_MM)
    (_hflo : MIN_BOBBLE_FREQ_HZ ≤ frequency_hz)
    (_hfhi : frequency_hz ≤ MAX_BOBBLE_FREQ_HZ)
    (_hlo : HEIGHT_MIN_MM ≤ c.state.height_mm - amplitude_mm)
    (_hhi : c.state.height_mm + amplitude_mm ≤ HEIGHT_MAX_MM) :
    c.start_bobble amplitude_mm frequency_hz =
      (c, Except.error BaseError.InvalidAmplitude) := by
  have h1 : c.interlock.is_emergency = false := hem
  unfold HeightController.start_bobble
  rw [h1, if_neg Bool.false_ne_true, if_pos (Or.inl hamp)]

/-- C10, witness at amplitude 0.5 mm, frequency 0.5 Hz, center 15 mm. -/
theorem C10_witness :
    bobbleController.start_bobble (1 / 2) (1 / 2) =
      (bobbleController, Except.error BaseError.InvalidAmplitude) :=
  C10_theorem bobbleController (1 / 2) (1 / 2) rfl (by norm_num)
    (by norm_num [MAX_BOBBLE_AMPLITUDE_MM])
    (by norm_num [MIN_BOBBLE_FREQ_HZ])
    (by norm_num [MAX_BOBBLE_FREQ_HZ])
    (by norm_num [bobbleController, HeightController.new, LevitationState.dfault,
      HEIGHT_MIN_MM])
    (by norm_num [bobbleController, HeightController.new, LevitationState.dfault,
      HEIGHT_MAX_MM])

/-! ## C1 -/

/-- C1, counterexample: with the interlock reporting emergency, `land` is
accepted (`Ok`) and changes state (mode becomes `Landing`, a new trajectory
is installed) — it is not rejected as the claim states. -/
theorem C1_counterexample :
    emergencyController.is_emergency = true
      ∧ (emergencyController.land).2 = Except.ok ()
      ∧ (emergencyController.land).1.mode = LevitationMode.Landing 15 5
      ∧ (emergencyController.land).1.motion.trajectory =
          some (HeightTrajectory.new 15 HEIGHT_MIN_MM 3) :=
  ⟨rfl, rfl, rfl, rfl⟩

/-- C1, amended: during emergency only `start_charging`, `stop_charging`,
`set_height` and `start_bobble` are rejected (with `EmergencyLanding`, no
state change); `stop_bobble` and `land` are accepted regardless of emergency,
and `on_orb_placed` is gated on lockout rather than emergency (it proceeds
during a non-lockout emergency). -/
theorem C1_theorem (c : HeightController) (h_mm : ℚ) (dur : ℕ) (amp freq : ℚ)
    (hem : c.interlock.emergency_active = true) :
    c.start_charging = (c, Except.error BaseError.EmergencyLanding)
    ∧ c.stop_charging = (c, Except.error BaseError.EmergencyLanding)
    ∧ c.set_height h_mm dur = (c, Except.error BaseError.EmergencyLanding)
    ∧ c.start_bobble amp freq = (c, Except.error BaseError.EmergencyLanding)
    ∧ (c.stop_bobble).2 = Except.ok ()
    ∧ (c.land).2 = Except.ok ()
    ∧ (c.interlock.lockout = false →
        (c.on_orb_placed).mode = LevitationMode.Float HEIGHT_FLOAT_MM) := by
  have h1 : c.interlock.is_emergency = true := hem
  refine ⟨?_, ?_, ?_, ?_, rfl, rfl, ?_⟩
  · unfold HeightController.start_charging
    rw [h1, if_pos rfl]
  · unfold HeightController.stop_charging
    rw [h1, if_pos rfl]
  · unfold HeightController.set_height
    rw [h1, if_pos rfl]
  · unfold HeightController.start_bobble
    rw [h1, if_pos rfl]
  · intro hlock
    have h2 : c.interlock.is_locked_out = false := hlock
    unfold HeightController.on_orb_placed
    rw [h2, if_pos rfl]

/-- C1, witness for the amended theorem at the concrete emergency
controller. -/
theorem C1_witness :
    emergencyController.start_charging =
        (emergencyController, Except.error BaseError.EmergencyLanding)
      ∧ (emergencyController.on_orb_placed).mode =
        LevitationMode.Float HEIGHT_FLOAT_MM :=
  have h := C1_theorem emergencyController 15 1000 3 (1 / 2) rfl
  ⟨h.1, h.2.2.2.2.2.2 rfl⟩

/-! ## C2 -/

/-- C2: whenever the interlock declares emergency for the tick (its `update`
on the tick's safety result returns `true`), `HeightController::update` forces
the mode to `EmergencyLanding` and returns `Ok((0.0, 0.0))`. -/
theorem C2_theorem (env : LibmEnv) (c : HeightController) (adc_value : ℕ)
    (power_ok : Bool) (coil_temp : ℚ)
    (hem : (c.interlock.update (c.safety_verifier.compute_barrier
        (c.tickSnapshot adc_value power_ok coil_temp).2.2)).2 = true) :
    (HeightController.update env c adc_value power_ok coil_temp).1.mode =
        LevitationMode.EmergencyLanding
      ∧ (HeightController.update env c adc_value power_ok coil_temp).2 =
        Except.ok ((0 : ℚ), (0 : ℚ)) := by
  constructor <;>
    (simp only [HeightController.update]
     rw [hem]
     simp)

/-- C2, witness: with four prior violation cycles and a power-fail tick
(unsafe result, fifth consecutive violation), `update` declares emergency,
forces `EmergencyLanding` and returns `Ok((0, 0))`. -/
theorem C2_witness :
    (HeightController.update zeroLibm preEmergencyController 4000 false 50).1.mode =
        LevitationMode.EmergencyLanding
      ∧ (HeightController.update zeroLibm preEmergencyController 4000 false 50).2 =
        Except.ok ((0 : ℚ), (0 : ℚ)) :=
  C2_theorem zeroLibm preEmergencyController 4000 false 50 (by
    norm_num [HeightController.tickSnapshot, preEmergencyController,
      HeightController.new, VelocityFilter.update, VelocityFilter.new,
      OscillationDetector.update, OscillationDetector.new,
      OscillationDetector.amplitude, CalibrationData.adc_to_height,
      CalibrationData.pt, CalibrationData.dfault, CalibrationPoint.dfault,
      LevitationState.dfault, SafetyInterlockManager.update,
      SafetyInterlockManager.new, LevitationSafetyVerifier.compute_barrier,
      foldMin, LevitationSafetyVerifier.new, LevitationSafetyVerifier.h_height_upper,
      LevitationSafetyVerifier.h_height_lower, LevitationSafetyVerifier.h_descent_rate,
      LevitationSafetyVerifier.h_oscillation, LevitationSafetyVerifier.h_thermal,
      LevitationSafetyVerifier.h_power, f32MAX, CONTROL_RATE_HZ,
      HEIGHT_MAX_MM, HEIGHT_MIN_MM, MAX_DESCENT_RATE_MM_S, MAX_OSCILLATION_MM,
      MAX_COIL_TEMP_C, WARN_COIL_TEMP_C])

/-! ## C7 -/

/-- C7: the load interface performs NO validation — `set_calibration`
unconditionally installs a table that `is_valid` rejects, and the installed
table is exactly what subsequent ticks interpolate from (`update` reads
`height_cal` as stored). The spec (and `is_valid`'s own purpose) say invalid
tables are rejected on load; the code never calls `is_valid`. -/
theorem C7_theorem :
    invalidCalibration.is_valid = false
      ∧ (HeightController.new.set_calibration invalidCalibration
          WptCalibrationData.dfault).height_cal = invalidCalibration
      ∧ (HeightController.new.set_calibration invalidCalibration
          WptCalibrationData.dfault).wpt_cal = WptCalibrationData.dfault :=
  ⟨rfl, rfl, rfl⟩

/-! ## C8 -/

/-- A valid table ranging over the `is_valid` endpoint bounds from plausible
manufacturing ranges: a validated table may start at height 3, and the ranges
the endpoints must fall within. -/
theorem is_valid_endpoint_bounds (c : CalibrationData) (h : c.is_valid = true) :
    (c.pt 0).height_mm ≥ 3 ∧ (c.pt 0).height_mm ≤ 10 ∧
    (c.pt (c.num_points - 1)).height_mm ≥ 20 ∧
    (c.pt (c.num_points - 1)).height_mm ≤ 30 := by
  simp only [CalibrationData.is_valid] at h
  split_ifs at h with hn
  simp only [Bool.and_eq_true, decide_eq_true_eq] at h
  exact ⟨h.2.1, h.2.2.1, h.2.2.2.1, h.2.2.2.2.1⟩

/-- C8, counterexample: `lowStartTable` is accepted as valid, the input 2 mm
is below the table's first height (outside the table's range), yet
`height_to_dac 2` returns 81/34 V — an interpolated value, not the nearest
endpoint value 5/2 V: the pre-clamp to [5, 25] mm lands inside the table. -/
theorem C8_counterexample :
    lowStartTable.is_valid = true
      ∧ (2 : ℚ) < (lowStartTable.pt 0).height_mm
      ∧ lowStartTable.height_to_dac 2 = 81 / 34
      ∧ (lowStartTable.pt 0).dac_voltage = 5 / 2
      ∧ ((81 : ℚ) / 34) ≠ 5 / 2 := by
  refine ⟨?_, ?_, ?_, ?_, ?_⟩
  · norm_num [CalibrationData.is_valid, lowStartTable, CalibrationData.pt,
      CalibrationPoint.dfault, show List.range' 1 2 = [1, 2] from rfl,
      List.getD_cons_zero, List.getD_cons_succ]
  · norm_num [lowStartTable, CalibrationData.pt, List.getD_cons_zero]
  · norm_num [CalibrationData.height_to_dac, lowStartTable, CalibrationData.pt,
      clampQ, loopFirst, CalibrationPoint.dfault, HEIGHT_MIN_MM, HEIGHT_MAX_MM,
      show List.range 2 = [0, 1] from rfl,
      List.getD_cons_zero, List.getD_cons_succ]
  · norm_num [lowStartTable, CalibrationData.pt, List.getD_cons_zero]
  · norm_num

/-- C8, amended: `adc_to_height` clamps at the array endpoints (ADC at or
above the first point's value returns the first height; at or below the last
point's value returns the last height). `height_to_dac` first clamps its
input to [5, 25] mm and only then clamps at the table endpoints, so an
out-of-range height returns the endpoint voltage when the corresponding
endpoint height lies inside [5, 25] mm; for a valid table whose first height
is below 5 mm or last height above 25 mm, out-of-range inputs are
interpolated at the clamped height instead (see the counterexample). -/
theorem C8_theorem :
    (∀ (c : CalibrationData) (adc : ℕ), adc ≥ (c.pt 0).adc_value →
        c.adc_to_height adc = (c.pt 0).height_mm)
    ∧ (∀ (c : CalibrationData) (adc : ℕ), adc < (c.pt 0).adc_value →
        adc ≤ (c.pt (c.num_points - 1)).adc_value →
        c.adc_to_height adc = (c.pt (c.num_points - 1)).height_mm)
    ∧ (∀ (c : CalibrationData) (target : ℚ), c.is_valid = true →
        HEIGHT_MIN_MM ≤ (c.pt 0).height_mm → target ≤ (c.pt 0).height_mm →
        c.height_to_dac target = (c.pt 0).dac_voltage)
    ∧ (∀ (c : CalibrationData) (target : ℚ), c.is_valid = true →
        (c.pt (c.num_points - 1)).height_mm ≤ HEIGHT_MAX_MM →
        (c.pt (c.num_points - 1)).height_mm ≤ target →
        c.height_to_dac target = (c.pt (c.num_points - 1)).dac_voltage) := by
  refine ⟨?_, ?_, ?_, ?_⟩
  · intro c adc ha
    simp only [CalibrationData.adc_to_height]
    rw [if_pos ha]
  · intro c adc h1 h2
    simp only [CalibrationData.adc_to_height]
    rw [if_neg (not_le.mpr h1), if_pos h2]
  · intro c target hv h5 hle
    obtain ⟨h3, h10, h20, h30⟩ := is_valid_endpoint_bounds c hv
    have h5q : (5 : ℚ) ≤ (c.pt 0).height_mm := h5
    simp only [CalibrationData.height_to_dac]
    have hcl : clampQ target HEIGHT_MIN_MM HEIGHT_MAX_MM ≤ (c.pt 0).height_mm := by
      simp only [clampQ, HEIGHT_MIN_MM, HEIGHT_MAX_MM]
      split_ifs <;> linarith
    rw [if_pos hcl]
  · intro c target hv h25 hge
    obtain ⟨h3, h10, h20, h30⟩ := is_valid_endpoint_bounds c hv
    have h25q : (c.pt (c.num_points - 1)).height_mm ≤ (25 : ℚ) := h25
    simp only [CalibrationData.height_to_dac]
    have hne : ¬ (clampQ target HEIGHT_MIN_MM HEIGHT_MAX_MM ≤ (c.pt 0).height_mm) := by
      simp only [clampQ, HEIGHT_MIN_MM, HEIGHT_MAX_MM]
      split_ifs <;> push_neg <;> linarith
    have hge2 : clampQ target HEIGHT_MIN_MM HEIGHT_MAX_MM ≥
        (c.pt (c.num_points - 1)).height_mm := by
      simp only [clampQ, HEIGHT_MIN_MM, HEIGHT_MAX_MM]
      split_ifs <;> linarith
    rw [if_neg hne, if_pos hge2]

/-- C8, witness: the default table clamps an over-range ADC reading (4000,
above the first point's 3800) to the first point's height. -/
theorem C8_witness :
    CalibrationData.dfault.adc_to_height 4000 =
      (CalibrationData.dfault.pt 0).height_mm :=
  C8_theorem.1 CalibrationData.dfault 4000
    (by norm_num [CalibrationData.pt, CalibrationData.dfault, List.getD_cons_zero])

end Art
